import Mathlib

/-!
Verification of the avigilon-dashboard session/cache core.

Shallow embedding of:
- `src/backend/src/services/avigilonService.js` (on-prem session manager:
  `isSessionValid`, `ensureSession`, `login`, the axios 401 retry interceptor,
  and the generic TTL cache `getCached`/`setCache`), and
- `src/unnamed/part_006` (`CloudApiService`: JWT token intake, token status,
  TTL cache, 401 interceptor, server listing/detail fetch and the
  health-summary aggregator `getAllServerHealthSummary` /
  `normalizeServerHealth`).

Modelling conventions:
- Time is an explicit `Nat` parameter (`Date.now()` in milliseconds; the JWT
  `exp`/`iat` claims are in seconds, as in the source).
- JS number comparisons that can go negative are done in `Int`.
- The JS `Map` backing each cache is a key/value association list; cache keys
  (template strings in the source, e.g. `cloud_server_${id}`) are an inductive
  type, faithful because the source's key templates are injective.
- Upstream JSON objects that the code only copies (hardware items, network
  items, license, analytics) are modelled by the opaque type `UpObj`.
- Fallible upstream HTTP calls are an oracle (`Except` results); `async`
  functions become explicit state passing returning `CloudState × Except _ _`.
-/

namespace AvigilonDashboard

/-! ## Generic TTL cache

Both services carry `this.cache = new Map()` with the same `getCached` /
`setCache` / `clearCache` logic (avigilonService.js lines 117-146,
part_006 lines 166-196) and the same 5-minute default TTL (300000 ms).
-/

/-- One cache entry `{ data, expiry }` as stored by `setCache`. -/
structure CacheEntry (α : Type) where
  data : α
  expiry : Nat
deriving DecidableEq

/-- `Map.get` on the association list backing the cache. -/
def storeGet {κ α : Type} [DecidableEq κ] : List (κ × CacheEntry α) → κ → Option (CacheEntry α)
  | [], _ => none
  | (k', e) :: rest, k => if k' = k then some e else storeGet rest k

/-- `Map.set`: replace the entry under `k` if present, else append. -/
def storeSet {κ α : Type} [DecidableEq κ] : List (κ × CacheEntry α) → κ → CacheEntry α → List (κ × CacheEntry α)
  | [], k, e => [(k, e)]
  | (k', e') :: rest, k, e => if k' = k then (k, e) :: rest else (k', e') :: storeSet rest k e

/-- `Map.delete`: remove the entry under `k`. -/
def storeDelete {κ α : Type} [DecidableEq κ] : List (κ × CacheEntry α) → κ → List (κ × CacheEntry α)
  | [], _ => []
  | (k', e') :: rest, k => if k' = k then storeDelete rest k else (k', e') :: storeDelete rest k

/-- `getCached(key)`: return the stored data if `Date.now() < cached.expiry`;
an expired entry is deleted lazily on read; returns `null` (here `none`)
otherwise. Returns the possibly-updated store alongside the result. -/
def getCached {κ α : Type} [DecidableEq κ] (s : List (κ × CacheEntry α)) (k : κ) (now : Nat) :
    Option α × List (κ × CacheEntry α) :=
  match storeGet s k with
  | some e => if now < e.expiry then (some e.data, s) else (none, storeDelete s k)
  | none => (none, s)

/-- The `ttl || this.cacheTTL` defaulting in `setCache(key, data, ttl = null)`:
a `null` (here `none`) or `0` ttl (JS falsy) falls back to the instance
default of 300000 ms. -/
def effectiveTTL (ttl : Option Nat) : Nat :=
  match ttl with
  | none => 300000
  | some t => if t = 0 then 300000 else t

/-- `setCache(key, data, ttl)`: store `{ data, expiry: Date.now() + cacheTTL }`. -/
def setCache {κ α : Type} [DecidableEq κ] (s : List (κ × CacheEntry α)) (k : κ) (v : α)
    (ttl : Option Nat) (now : Nat) : List (κ × CacheEntry α) :=
  storeSet s k ⟨v, now + effectiveTTL ttl⟩

theorem storeGet_storeSet_self {κ α : Type} [DecidableEq κ]
    (s : List (κ × CacheEntry α)) (k : κ) (e : CacheEntry α) :
    storeGet (storeSet s k e) k = some e := by
  induction s with
  | nil => simp [storeGet, storeSet]
  | cons he rest ih =>
    obtain ⟨k', e'⟩ := he
    by_cases h : k' = k <;> simp [storeGet, storeSet, h, ih]

theorem storeGet_storeSet_ne {κ α : Type} [DecidableEq κ]
    (s : List (κ × CacheEntry α)) (k k' : κ) (e : CacheEntry α) (h : k' ≠ k) :
    storeGet (storeSet s k e) k' = storeGet s k' := by
  induction s with
  | nil => simp [storeGet, storeSet, Ne.symm h]
  | cons he rest ih =>
    obtain ⟨k0, e0⟩ := he
    by_cases h0 : k0 = k
    · subst h0
      simp [storeGet, storeSet, Ne.symm h]
    · simp [storeGet, storeSet, h0, ih]

theorem storeGet_storeDelete_self {κ α : Type} [DecidableEq κ]
    (s : List (κ × CacheEntry α)) (k : κ) :
    storeGet (storeDelete s k) k = none := by
  induction s with
  | nil => simp [storeGet, storeDelete]
  | cons he rest ih =>
    obtain ⟨k', e'⟩ := he
    by_cases h : k' = k <;> simp [storeGet, storeDelete, h, ih]

theorem storeGet_storeDelete_ne {κ α : Type} [DecidableEq κ]
    (s : List (κ × CacheEntry α)) (k k' : κ) (h : k' ≠ k) :
    storeGet (storeDelete s k) k' = storeGet s k' := by
  induction s with
  | nil => simp [storeDelete]
  | cons he rest ih =>
    obtain ⟨k0, e0⟩ := he
    by_cases h0 : k0 = k
    · subst h0
      simp [storeGet, storeDelete, Ne.symm h, ih]
    · simp [storeGet, storeDelete, h0, ih]

/-! ## On-prem session manager (avigilonService.js)

State is the pair of fields `this.sessionToken` / `this.sessionExpiry`
(milliseconds). `login` is modelled in its success path: it stores the
session returned by the upstream and `sessionExpiry = Date.now() + 60*60*1000`
(avigilonService.js lines 190-195).
-/

namespace OnPrem

structure SessState where
  sessionToken : Option String
  sessionExpiry : Option Nat
deriving DecidableEq

/-- Fresh service instance: `sessionToken = null`, `sessionExpiry = null`. -/
def initialState : SessState := { sessionToken := none, sessionExpiry := none }

/-- `isSessionValid()` (lines 151-156): no token means invalid; a token with
no recorded expiry counts as valid; otherwise valid iff
`Date.now() < sessionExpiry - 5*60*1000` (5-minute buffer). -/
def isSessionValid (st : SessState) (nowMs : Nat) : Bool :=
  match st.sessionToken with
  | none => false
  | some _ =>
    match st.sessionExpiry with
    | none => true
    | some e => decide ((nowMs : Int) < (e : Int) - 5 * 60 * 1000)

/-- Success path of `login()` (lines 190-195): store the upstream session
`tok` and the local estimate `sessionExpiry = now + 60*60*1000`. -/
def login (st : SessState) (nowMs : Nat) (tok : String) : SessState :=
  { st with sessionToken := some tok, sessionExpiry := some (nowMs + 60 * 60 * 1000) }

/-- `ensureSession()` (lines 161-168): log in iff the current session is not
valid. Returns the new state and the number of logins performed (0 or 1). -/
def ensureSession (st : SessState) (nowMs : Nat) (tok : String) : SessState × Nat :=
  if isSessionValid st nowMs then (st, 0) else (login st nowMs tok, 1)

/-- A sequence of `ensureSession()` calls at the given times, threading the
session state and summing the logins that reached the upstream. -/
def ensureSessionSeq (st : SessState) (tok : String) : List Nat → SessState × Nat
  | [] => (st, 0)
  | t :: ts =>
    let r := ensureSession st t tok
    let rest := ensureSessionSeq r.1 tok ts
    (rest.1, r.2 + rest.2)

/-! ### The 401 retry interceptor (avigilonService.js lines 97-111)

The axios response interceptor: on an error with `status === 401` and
`!originalRequest._retry`, it sets `_retry = true`, re-logs-in, and replays
the original request; any other error is rejected unchanged. `outcomes n` is
the upstream's answer to the n-th transmission of the request. Re-login is
modelled as succeeding (its failure mode is outside the retry contract).
The recursion through `axiosInstance.request` is driven by fuel; the real
bound comes from the `_retry` flag, which the theorems make explicit by
holding for every fuel ≥ 2. -/

inductive HttpOutcome
  | success (v : Nat)
  | failure (status : Nat)
deriving DecidableEq

/-- The interceptor's guard: `error.response?.status === 401 && !originalRequest._retry`. -/
def shouldRetryOn401 (retryFlag : Bool) (status : Nat) : Bool :=
  status == 401 && !retryFlag

/-- One request through the interceptor: `attempt` indexes transmissions,
`retryFlag` is `originalRequest._retry`, `logins` counts re-logins performed. -/
def runRequestFrom (outcomes : Nat → HttpOutcome) : Nat → Bool → Nat → Nat → Nat × HttpOutcome
  | _, _, logins, 0 => (logins, .failure 0)
  | attempt, retryFlag, logins, fuel + 1 =>
    match outcomes attempt with
    | .success v => (logins, .success v)
    | .failure s =>
      if shouldRetryOn401 retryFlag s then
        runRequestFrom outcomes (attempt + 1) true (logins + 1) fuel
      else (logins, .failure s)

/-- A fresh outbound call: first transmission, `_retry` unset, no logins yet. -/
def runRequest (outcomes : Nat → HttpOutcome) : Nat × HttpOutcome :=
  runRequestFrom outcomes 0 false 0 2

end OnPrem

/-! ## Cloud hardware-health service (`CloudApiService`, src/unnamed/part_006) -/

namespace Cloud

/-- An upstream JSON value the code only copies around (power supplies,
temperature probes, cooling devices, disks, networks, license, analytics).
JS objects are always truthy, which the modelling of `x || y` relies on. -/
structure UpObj where
  tag : Nat
deriving DecidableEq

/-- One element of the `servers` array returned by `GET /servers`. -/
structure ServerListing where
  id : String
  name : Option String
  connectionState : Option String
  platformId : Option String
  version : Option String
  time : Option String
  ipAddress : Option String
deriving DecidableEq

/-- The `hardware` sub-object of a server-detail response. -/
structure HardwareInfo where
  powerSupplies : Option (List UpObj)
  temperatureProbes : Option (List UpObj)
  coolingDevices : Option (List UpObj)
  arrayDisks : Option (List UpObj)
deriving DecidableEq

/-- A `GET /servers/\x7bserverId\x7d` detail response (the fields
`normalizeServerHealth` reads). Byte counts are naturals. -/
structure ServerDetail where
  name : Option String
  connectionState : Option String
  modelName : Option String
  serviceTag : Option String
  version : Option String
  time : Option String
  ipAddress : Option String
  availablePhysicalMemoryBytes : Option Nat
  physicalMemoryUsageBytes : Option Nat
  hardware : Option HardwareInfo
  systemCPU : Option Nat
  processCPU : Option Nat
  networks : Option (List UpObj)
  license : Option UpObj
  analyticsService : Option UpObj
  startTime : Option String
deriving DecidableEq

/-- The body of a `GET /servers` response, read as `serverList?.servers`. -/
structure ServersResponse where
  servers : Option (List ServerListing)
deriving DecidableEq

structure HwLists where
  psus : List UpObj
  temperatureProbes : List UpObj
  coolingDevices : List UpObj
  disks : List UpObj
deriving DecidableEq

structure CpuInfo where
  systemPercent : Nat
  processPercent : Option Nat
deriving DecidableEq

/-- The `memory` sub-object; the `usedGB`/`totalGB` strings
(`toFixed(1)` float formatting) are not modelled. -/
structure MemoryInfo where
  usagePercent : Nat
deriving DecidableEq

/-- A normalized per-server health snapshot (`normalizeServerHealth`'s
return shape, part_006 lines 294-322). -/
structure HealthRecord where
  cloudServerId : String
  serverName : String
  connectionState : String
  model : Option String
  serviceTag : Option String
  version : Option String
  lastSeen : Option String
  ipAddress : Option String
  hardware : HwLists
  cpu : Option CpuInfo
  memory : Option MemoryInfo
  networks : List UpObj
  license : Option UpObj
  analytics : Option UpObj
  startTime : Option String
deriving DecidableEq

/-- JS truthiness of an optional string: `undefined`, `null` and `""` are
falsy, any other string is truthy. -/
def strTruthy (o : Option String) : Option String :=
  match o with
  | some s => if s = "" then none else some s
  | none => none

/-- `a || b` on optional strings. -/
def jsOrStr (a b : Option String) : Option String :=
  match strTruthy a with
  | some s => some s
  | none => strTruthy b

/-- `Math.round(num / den)` for a nonnegative exact rational `num / den`
(`den > 0`): halves round up, as in JS. -/
def jsRound (num den : Nat) : Nat :=
  (2 * num + den) / (2 * den)

/-- `normalizeServerHealth(server, detail)` (part_006 lines 283-323):
`detail` is `null` for a server whose detail call failed, and then
`d = detail || \x7b\x7d` makes every `d.`-field read `undefined`. -/
def normalizeServerHealth (server : ServerListing) (detail : Option ServerDetail) : HealthRecord :=
  let hw := detail.bind (fun d => d.hardware)
  let availBytes := (detail.bind (fun d => d.availablePhysicalMemoryBytes)).getD 0
  let usedBytes := (detail.bind (fun d => d.physicalMemoryUsageBytes)).getD 0
  let totalBytes := availBytes + usedBytes
  { cloudServerId := server.id
    serverName := (jsOrStr server.name (detail.bind (fun d => d.name))).getD "Unknown"
    connectionState :=
      (jsOrStr server.connectionState (detail.bind (fun d => d.connectionState))).getD "Unknown"
    model := jsOrStr (detail.bind (fun d => d.modelName)) server.platformId
    serviceTag := strTruthy (detail.bind (fun d => d.serviceTag))
    version := jsOrStr (detail.bind (fun d => d.version)) server.version
    lastSeen := jsOrStr server.time (detail.bind (fun d => d.time))
    ipAddress := jsOrStr server.ipAddress (detail.bind (fun d => d.ipAddress))
    hardware :=
      { psus := (hw.bind (fun h => h.powerSupplies)).getD []
        temperatureProbes := (hw.bind (fun h => h.temperatureProbes)).getD []
        coolingDevices := (hw.bind (fun h => h.coolingDevices)).getD []
        disks := (hw.bind (fun h => h.arrayDisks)).getD [] }
    cpu :=
      match detail.bind (fun d => d.systemCPU) with
      | some c => some { systemPercent := c, processPercent := detail.bind (fun d => d.processCPU) }
      | none => none
    memory :=
      if 0 < totalBytes then some { usagePercent := jsRound (usedBytes * 100) totalBytes }
      else none
    networks := (detail.bind (fun d => d.networks)).getD []
    license := detail.bind (fun d => d.license)
    analytics := detail.bind (fun d => d.analyticsService)
    startTime := strTruthy (detail.bind (fun d => d.startTime)) }

/-! ### Cloud service state, token intake and cache -/

/-- The cache keys the service issues. In the source these are the template
strings `cloud_servers_$\x7bpage\x7d_$\x7bpageSize\x7d`, `cloud_server_$\x7bserverId\x7d` and
`cloud_health_summary`; the inductive rendering keeps them distinct. -/
inductive CloudKey
  | servers (page pageSize : Nat)
  | serverDetail (id : String)
  | healthSummary
deriving DecidableEq

/-- A value stored in the service's single `Map`: a raw server-list response,
a raw detail response, or a normalized health summary. -/
inductive CloudData
  | serverList (resp : ServersResponse)
  | detail (d : ServerDetail)
  | summary (records : List HealthRecord)
deriving DecidableEq

/-- Dynamic read of `.servers` used as `serverList?.servers || []`: on a
non-list-shaped value the field is `undefined`, giving `[]`. -/
def serversOf : CloudData → List ServerListing
  | .serverList r => r.servers.getD []
  | _ => []

/-- Dynamic use of a cached value as a detail object: a value of another
shape has every detail field `undefined`, which is what `none` produces
downstream in `normalizeServerHealth`. -/
def asDetail : CloudData → Option ServerDetail
  | .detail d => some d
  | _ => none

/-- The decoded JWT claims the service keeps (`exp` and `iat`, in seconds). -/
structure JwtPayload where
  exp : Int
  iat : Int
deriving DecidableEq

/-- The `CloudApiService` fields the claims are about: `jwtToken`,
`tokenPayload`, `tokenSetAt` (a millisecond timestamp) and `cache`. -/
structure CloudState where
  jwtToken : Option String
  tokenPayload : Option JwtPayload
  tokenSetAt : Option Nat
  cache : List (CloudKey × CacheEntry CloudData)
deriving DecidableEq

/-- `clearCache()` (lines 193-196): `this.cache.clear()`. -/
def clearCache (st : CloudState) : CloudState := { st with cache := [] }

def cacheHas (st : CloudState) (k : CloudKey) : Bool := (storeGet st.cache k).isSome

/-- Result shape of `getTokenStatus()`. `hasCachedData` is absent
(`none`) on the no-token branch, which returns an object without that field;
`expiresAtFormatted` (date-string formatting) is not modelled. -/
structure TokenStatus where
  hasToken : Bool
  isExpired : Bool
  expiresAt : Option Int
  setAt : Option Nat
  hasCachedData : Option Bool
deriving DecidableEq

/-- `getTokenStatus()` (lines 81-98). `jwtToken` and `tokenPayload` are
always set and cleared together (`setToken`/`clearToken`), so the branch is
taken on both. `isExpired` is `tokenPayload.exp - 300 < floor(Date.now()/1000)`;
`hasCachedData` is `cache.has('cloud_health_summary')`, presence only. -/
def getTokenStatus (st : CloudState) (nowMs : Nat) : TokenStatus :=
  match st.jwtToken, st.tokenPayload with
  | some _, some p =>
    { hasToken := true
      isExpired := decide (p.exp - 300 < ((nowMs / 1000 : Nat) : Int))
      expiresAt := some p.exp
      setAt := st.tokenSetAt
      hasCachedData := some (cacheHas st CloudKey.healthSummary) }
  | _, _ =>
    { hasToken := false, isExpired := true, expiresAt := none
      setAt := none, hasCachedData := none }

/-- The errors surfaced by the cloud service: the two `ensureToken` throws
and upstream HTTP failures. -/
inductive CloudErr
  | noToken
  | tokenExpired
  | upstream
deriving DecidableEq

/-- `ensureToken()` (lines 114-122): precondition guard for direct calls. -/
def ensureToken (st : CloudState) (nowMs : Nat) : Except CloudErr Unit :=
  let status := getTokenStatus st nowMs
  if status.hasToken = false then Except.error CloudErr.noToken
  else if status.isExpired then Except.error CloudErr.tokenExpired
  else Except.ok ()

/-- Split a character list at every occurrence of `c`, keeping empty
segments, as JS `String.prototype.split` does with a one-character
separator. -/
def splitList (c : Char) : List Char → List (List Char)
  | [] => [[]]
  | x :: xs =>
    if x = c then [] :: splitList c xs
    else
      match splitList c xs with
      | [] => [[x]]
      | y :: ys => (x :: y) :: ys

/-- JS `token.split('.')`. -/
def jsSplitDot (s : String) : List String := (splitList '.' s.data).map String.mk

/-- `decodeJwtPayload(token)` (lines 26-35): split on `'.'`, require exactly
3 segments, then decode/parse the middle segment. The base64url + `JSON.parse`
step on the payload segment is abstracted as the function argument
`parsePayload` (`none` models its throw, caught and rewrapped). -/
def decodeJwtPayload (parsePayload : String → Option JwtPayload) (token : String) :
    Except String JwtPayload :=
  let parts := jsSplitDot token
  if parts.length ≠ 3 then Except.error "Failed to decode JWT: Invalid JWT format"
  else
    match parsePayload ((parts[1]?).getD "") with
    | some p => Except.ok p
    | none => Except.error "Failed to decode JWT"

/-- The object `setToken` returns on success. -/
structure SetTokenResult where
  expiresAt : Int
  issuedAt : Int
  setAt : Nat
deriving DecidableEq

/-- `setToken(token)` (lines 40-61): decode first — a decode throw aborts
before any field is touched; on success store the token, its payload and
`tokenSetAt`, and clear the whole cache. The eager health prefetch it then
launches is fire-and-forget and performs no synchronous cache write, so the
state `setToken` returns is the state at its return. -/
def setToken (parsePayload : String → Option JwtPayload) (st : CloudState) (raw : String)
    (nowMs : Nat) : CloudState × Except String SetTokenResult :=
  match decodeJwtPayload parsePayload raw with
  | .error e => (st, .error e)
  | .ok payload =>
    let st1 := clearCache
      { st with jwtToken := some raw, tokenPayload := some payload, tokenSetAt := some nowMs }
    (st1, .ok { expiresAt := payload.exp, issuedAt := payload.iat, setAt := nowMs })

/-- The axios response interceptor for 401 detection (lines 148-160): on a
401 it sets `tokenPayload.exp = 0` when a payload is stored; every error is
still rejected to the caller. -/
def cloudResponseInterceptor (st : CloudState) (status : Nat) : CloudState :=
  if status = 401 then
    match st.tokenPayload with
    | some p => { st with tokenPayload := some { p with exp := 0 } }
    | none => st
  else st

/-! ### Upstream calls and the health aggregator -/

/-- The cloud upstream as a deterministic oracle: the outcome of
`GET /servers` and of `GET /servers/\x7bid\x7d` per server id. An `Except.error`
carries the HTTP status of the rejection. -/
structure CloudOracle where
  serversResp : Except Nat ServersResponse
  detail : String → Except Nat ServerDetail

/-- The cache-miss path of `getServers`: the `ensureToken` guard, the
upstream fetch, and the short-TTL cache write of the raw response. A rejected
fetch passes through the 401 interceptor before propagating. -/
def getServersFetch (oc : CloudOracle) (st1 : CloudState) (nowMs : Nat) (page pageSize : Nat) :
    CloudState × Except CloudErr CloudData :=
  match ensureToken st1 nowMs with
  | .error e => (st1, .error e)
  | .ok _ =>
    match oc.serversResp with
    | .error status => (cloudResponseInterceptor st1 status, .error .upstream)
    | .ok resp =>
      ({ st1 with
          cache := setCache st1.cache (CloudKey.servers page pageSize)
            (CloudData.serverList resp) none nowMs },
        .ok (CloudData.serverList resp))

/-- `getServers(page, pageSize)` (lines 202-224): cache-first under
`cloud_servers_$\x7bpage\x7d_$\x7bpageSize\x7d`; on a miss, `ensureToken`, fetch, cache the
raw response under the default short TTL, return it. -/
def getServers (oc : CloudOracle) (st : CloudState) (nowMs : Nat) (page pageSize : Nat) :
    CloudState × Except CloudErr CloudData :=
  match getCached st.cache (CloudKey.servers page pageSize) nowMs with
  | (some v, c1) => ({ st with cache := c1 }, .ok v)
  | (none, c1) => getServersFetch oc { st with cache := c1 } nowMs page pageSize

/-- The fan-out `Promise.allSettled(servers.map(server =>
this.getServerDetails(server.id)))` of lines 265-267, with
`getServerDetails` from lines 230-241: per server, cache-first under
`cloud_server_$\x7bid\x7d`, then the `ensureToken` guard, then the fetch; a
fulfilled call caches and yields its response, a rejected one yields `none`
(`allSettled` keeps rejections).

On the single cooperative scheduler, every fan-out member runs its
synchronous prefix — cache check and `ensureToken` — before any response is
handled, so all members observe the token state from fan-out start: that
shared guard outcome is the `tokenOk` argument. Response-time effects (the
cache write of a fulfilled call, the 401 interceptor of a rejected one) are
threaded left to right; since the oracle is deterministic per id, the values
produced agree with any settlement order. -/
def fetchDetailsSettled (oc : CloudOracle) (nowMs : Nat) (tokenOk : Except CloudErr Unit)
    (st : CloudState) : List ServerListing → CloudState × List (Option CloudData)
  | [] => (st, [])
  | s :: rest =>
    let step : CloudState × Option CloudData :=
      match getCached st.cache (CloudKey.serverDetail s.id) nowMs with
      | (some v, c1) => ({ st with cache := c1 }, some v)
      | (none, c1) =>
        let st1 := { st with cache := c1 }
        match tokenOk with
        | .error _ => (st1, none)
        | .ok _ =>
          match oc.detail s.id with
          | .error status => (cloudResponseInterceptor st1 status, none)
          | .ok d =>
            ({ st1 with
                cache := setCache st1.cache (CloudKey.serverDetail s.id)
                  (CloudData.detail d) none nowMs },
              some (CloudData.detail d))
    let tail := fetchDetailsSettled oc nowMs tokenOk step.1 rest
    (tail.1, step.2 :: tail.2)

/-- The aggregation step of `getAllServerHealthSummary` over a fetched
listing `data` (lines 258-276): `serverList?.servers || []`; an empty
listing returns `[]` without caching; otherwise fan out over per-server
details (the token guard evaluated once, at fan-out creation), normalize
each `(listing, detail)` pair, cache the summary for 24 hours and return it. -/
def healthSummaryCompute (oc : CloudOracle) (st2 : CloudState) (nowMs : Nat) (data : CloudData) :
    CloudState × Except CloudErr CloudData :=
  let servers := serversOf data
  if servers.isEmpty then (st2, .ok (CloudData.summary []))
  else
    let fd := fetchDetailsSettled oc nowMs (ensureToken st2 nowMs) st2 servers
    let records := List.zipWith
      (fun s o => normalizeServerHealth s (Option.bind o asDetail)) servers fd.2
    ({ fd.1 with
        cache := setCache fd.1.cache CloudKey.healthSummary
          (CloudData.summary records) (some 86400000) nowMs },
      .ok (CloudData.summary records))

/-- The cache-miss path of `getAllServerHealthSummary`: the `ensureToken`
guard, the (cache-backed) server listing, then the aggregation step. -/
def healthSummaryFetch (oc : CloudOracle) (st1 : CloudState) (nowMs : Nat) :
    CloudState × Except CloudErr CloudData :=
  match ensureToken st1 nowMs with
  | .error e => (st1, .error e)
  | .ok _ =>
    match getServers oc st1 nowMs 1 100 with
    | (st2, .error e) => (st2, .error e)
    | (st2, .ok data) => healthSummaryCompute oc st2 nowMs data

/-- `getAllServerHealthSummary()` (lines 248-277): cache-first under
`cloud_health_summary`; on a miss, `ensureToken`, list servers, fan out over
per-server details tolerating individual failures, cache and return the
normalized summary. -/
def getAllServerHealthSummary (oc : CloudOracle) (st : CloudState) (nowMs : Nat) :
    CloudState × Except CloudErr CloudData :=
  match getCached st.cache CloudKey.healthSummary nowMs with
  | (some v, c1) => ({ st with cache := c1 }, .ok v)
  | (none, c1) => healthSummaryFetch oc { st with cache := c1 } nowMs

/-- Consistency of the detail-key region of the cache with the oracle: any
entry cached under `cloud_server_$\x7bid\x7d` holds the (fulfilled) oracle response
for `id`. Every state reachable between two upstream reconfigurations
satisfies it, since only fulfilled `getServerDetails` calls write such keys. -/
def detailConsistent (oc : CloudOracle) (cache : List (CloudKey × CacheEntry CloudData)) : Prop :=
  ∀ id e, storeGet cache (CloudKey.serverDetail id) = some e →
    ∃ d, oc.detail id = Except.ok d ∧ e.data = CloudData.detail d

/-! ### Sample inputs used by concrete instantiations -/

/-- A detail response with every optional field absent. -/
def emptyDetail : ServerDetail :=
  { name := none, connectionState := none, modelName := none, serviceTag := none
    version := none, time := none, ipAddress := none
    availablePhysicalMemoryBytes := none, physicalMemoryUsageBytes := none
    hardware := none, systemCPU := none, processCPU := none, networks := none
    license := none, analyticsService := none, startTime := none }

def sampleListing : ServerListing :=
  { id := "srv-1", name := some "Server One", connectionState := some "Connected"
    platformId := none, version := none, time := none, ipAddress := none }

/-- used = 2 GB, available = 2 GB (raw byte values). -/
def detailTwoGB : ServerDetail :=
  { emptyDetail with
    availablePhysicalMemoryBytes := some 2147483648
    physicalMemoryUsageBytes := some 2147483648 }

/-- used = 0, available = 0. -/
def detailZeroMem : ServerDetail :=
  { emptyDetail with
    availablePhysicalMemoryBytes := some 0
    physicalMemoryUsageBytes := some 0 }

/-- The state right after a successful `setToken`: token fields populated,
cache empty. -/
def tokenOnlyState (raw : String) (p : JwtPayload) (t0 : Nat) : CloudState :=
  { jwtToken := some raw, tokenPayload := some p, tokenSetAt := some t0, cache := [] }

/-- A payload parser accepting any segment, with claims exp = 3600, iat = 1. -/
def parseFixed : String → Option JwtPayload := fun _ => some { exp := 3600, iat := 1 }

/-- A stored token whose decoded claim says it expires at second 5000. -/
def stClaim5000 : CloudState :=
  { jwtToken := some "tok", tokenPayload := some { exp := 5000, iat := 0 }
    tokenSetAt := some 0, cache := [] }

/-- A stored token plus a health-summary cache entry that expired at
millisecond 1000 but has not yet been evicted by any read. -/
def stStaleSummary : CloudState :=
  { jwtToken := some "tok", tokenPayload := some { exp := 5000, iat := 0 }
    tokenSetAt := some 0
    cache := [(CloudKey.healthSummary, ⟨CloudData.summary [], 1000⟩)] }

/-- A prior state under an old token, with an unexpired long-TTL
health-summary entry still cached. -/
def stPrior : CloudState :=
  { jwtToken := some "old", tokenPayload := some { exp := 100, iat := 0 }
    tokenSetAt := some 0
    cache := [(CloudKey.healthSummary, ⟨CloudData.summary [], 999999999999⟩)] }

/-- The C3 scenario state: a token issued at second `T` expiring at
`T + 3600`, and a health summary cached at millisecond `1000 * T` under the
24-hour TTL (entry expiry `1000 * T + 86400000`). -/
def c3State (T : Nat) (raw : String) (t0 : Nat) (summ : List HealthRecord) : CloudState :=
  { jwtToken := some raw
    tokenPayload := some { exp := (T : Int) + 3600, iat := (T : Int) }
    tokenSetAt := some t0
    cache := [(CloudKey.healthSummary, ⟨CloudData.summary summ, 1000 * T + 86400000⟩)] }

/-- A minimal server listing with the given id. -/
def mkListing (i : String) : ServerListing :=
  { id := i, name := none, connectionState := none, platformId := none
    version := none, time := none, ipAddress := none }

/-- An upstream with three listed servers where the detail call for "b" is
rejected with a 500 and the others fulfill. -/
def threeServerOracle : CloudOracle :=
  { serversResp := Except.ok ⟨some [mkListing "a", mkListing "b", mkListing "c"]⟩
    detail := fun id => if id = "b" then Except.error 500 else Except.ok emptyDetail }

end Cloud

namespace OnPrem

/-- First transmission is rejected with 401, the replay succeeds. -/
def c1Outcomes : Nat → HttpOutcome :=
  fun n => match n with
  | 0 => HttpOutcome.failure 401
  | _ => HttpOutcome.success 7

end OnPrem

/-! ## Claim theorems -/

/-- C1: an outbound on-prem call whose first attempt fails with a 401 gets
exactly one transparent re-login and exactly one replay; the replay's
outcome — success or a second 401 — is returned unchanged, and there is no
third attempt (the result is `(1, outcomes 1)` for every fuel bound ≥ 2:
the `_retry` flag, not the fuel, stops the recursion). -/
theorem onprem_401_single_retry (outcomes : Nat → OnPrem.HttpOutcome)
    (h : outcomes 0 = OnPrem.HttpOutcome.failure 401) :
    (∀ fuel, 2 ≤ fuel →
        OnPrem.runRequestFrom outcomes 0 false 0 fuel = (1, outcomes 1))
      ∧ OnPrem.runRequest outcomes = (1, outcomes 1) := by
  have key : ∀ fuel, 2 ≤ fuel →
      OnPrem.runRequestFrom outcomes 0 false 0 fuel = (1, outcomes 1) := by
    intro fuel hf
    obtain ⟨f, rfl⟩ : ∃ f, fuel = f + 2 := ⟨fuel - 2, by omega⟩
    cases ho : outcomes 1 with
    | success v =>
      simp [OnPrem.runRequestFrom, h, ho, OnPrem.shouldRetryOn401]
    | failure s =>
      simp [OnPrem.runRequestFrom, h, ho, OnPrem.shouldRetryOn401]
  exact ⟨key, key 2 (by omega)⟩

/-- Concrete instantiation of C1: first attempt 401, replay succeeds with 7;
one login, the replayed result returned unchanged. -/
theorem onprem_401_single_retry_witness :
    OnPrem.runRequest OnPrem.c1Outcomes = (1, OnPrem.HttpOutcome.success 7) := by
  have h := (onprem_401_single_retry OnPrem.c1Outcomes rfl).2
  exact h

/-- C2: starting with no session, a sequence of `ensureSession()` calls whose
later calls all happen before the stored estimated expiry (first call time +
one hour) minus the 5-minute buffer performs exactly one login in total, and
it is the first call that performs it. -/
theorem ensureSession_at_most_one_login (tok : String) (t0 : Nat) (ts : List Nat)
    (h : ∀ t ∈ ts, (t : Int) < ((t0 + 60 * 60 * 1000 : Nat) : Int) - 5 * 60 * 1000) :
    (OnPrem.ensureSessionSeq OnPrem.initialState tok (t0 :: ts)).2 = 1
      ∧ (OnPrem.ensureSession OnPrem.initialState t0 tok).2 = 1 := by
  have hfirst : OnPrem.ensureSession OnPrem.initialState t0 tok =
      (OnPrem.login OnPrem.initialState t0 tok, 1) := by
    simp [OnPrem.ensureSession, OnPrem.isSessionValid, OnPrem.initialState]
  have hstable : ∀ ts' : List Nat,
      (∀ t ∈ ts', (t : Int) < ((t0 + 60 * 60 * 1000 : Nat) : Int) - 5 * 60 * 1000) →
      OnPrem.ensureSessionSeq (OnPrem.login OnPrem.initialState t0 tok) tok ts' =
        (OnPrem.login OnPrem.initialState t0 tok, 0) := by
    intro ts' hts'
    induction ts' with
    | nil => rfl
    | cons t rest ih =>
      have hvalid : OnPrem.isSessionValid (OnPrem.login OnPrem.initialState t0 tok) t = true := by
        simp [OnPrem.isSessionValid, OnPrem.login, OnPrem.initialState]
        exact hts' t (by simp)
      simp only [OnPrem.ensureSessionSeq, OnPrem.ensureSession, hvalid, if_true]
      rw [ih (fun t' ht' => hts' t' (by simp [ht']))]
      simp
  constructor
  · simp only [OnPrem.ensureSessionSeq, hfirst]
    rw [hstable ts h]
    simp
  · rw [hfirst]

/-- Concrete instantiation of C2: calls at 0 ms, 1000 ms and 3000000 ms —
all before 3600000 - 300000 — produce exactly one login. -/
theorem ensureSession_at_most_one_login_witness :
    (OnPrem.ensureSessionSeq OnPrem.initialState "sess" (0 :: [1000, 3000000])).2 = 1 := by
  have h := ensureSession_at_most_one_login "sess" 0 [1000, 3000000] (by decide)
  exact h.1

/-- C8: `setCache(k, v, ttl)` followed immediately by `getCached(k)` returns
`v` (the stored TTL — `ttl`, or the 300000 ms default when `ttl` is the JS
falsy 0 — is always positive); once the stored expiry has been reached
(`now'` no longer strictly before it), `getCached(k)` returns absent and the
entry is removed from the store. -/
theorem setCache_getCached_roundtrip {κ α : Type} [DecidableEq κ]
    (s : List (κ × CacheEntry α)) (k : κ) (v : α) (ttl now now' : Nat) :
    (getCached (setCache s k v (some ttl) now) k now).1 = some v
      ∧ (now + effectiveTTL (some ttl) ≤ now' →
          (getCached (setCache s k v (some ttl) now) k now').1 = none
            ∧ storeGet (getCached (setCache s k v (some ttl) now) k now').2 k = none) := by
  have hpos : 0 < effectiveTTL (some ttl) := by
    simp only [effectiveTTL]
    split <;> omega
  constructor
  · unfold getCached setCache
    rw [storeGet_storeSet_self]
    have hlt : now < now + effectiveTTL (some ttl) := by omega
    simp [hlt]
  · intro hle
    unfold getCached setCache
    rw [storeGet_storeSet_self]
    have hge : ¬ (now' < now + effectiveTTL (some ttl)) := by omega
    simp [hge, storeGet_storeDelete_self]

/-- Concrete instantiation of C8: store 5 under "k" with ttl 7 at time 0 —
an immediate read returns 5, a read at time 7 returns absent. -/
theorem setCache_getCached_roundtrip_witness :
    (getCached (setCache ([] : List (String × CacheEntry Nat)) "k" 5 (some 7) 0) "k" 0).1 = some 5
      ∧ (getCached (setCache ([] : List (String × CacheEntry Nat)) "k" 5 (some 7) 0) "k" 7).1
          = none := by
  obtain ⟨h1, h2⟩ := setCache_getCached_roundtrip ([] : List (String × CacheEntry Nat)) "k" 5 7 0 7
  exact ⟨h1, (h2 (by decide)).1⟩

/-- C9: `normalizeServerHealth` computes the memory percentage as
`round(used / (used + available) * 100)` whenever `used + available` is
positive, and yields `null` — never a division error, the function is total —
when `used + available` is zero. -/
theorem memory_normalization (server : Cloud.ServerListing) (d : Cloud.ServerDetail) :
    (0 < (d.physicalMemoryUsageBytes).getD 0 + (d.availablePhysicalMemoryBytes).getD 0 →
        (Cloud.normalizeServerHealth server (some d)).memory =
          some ⟨Cloud.jsRound ((d.physicalMemoryUsageBytes).getD 0 * 100) ((d.physicalMemoryUsageBytes).getD 0 + (d.availablePhysicalMemoryBytes).getD 0)⟩)
      ∧ ((d.physicalMemoryUsageBytes).getD 0 + (d.availablePhysicalMemoryBytes).getD 0 = 0 →
          (Cloud.normalizeServerHealth server (some d)).memory = none) := by
  have hmem : (Cloud.normalizeServerHealth server (some d)).memory =
      if 0 < (d.availablePhysicalMemoryBytes).getD 0 + (d.physicalMemoryUsageBytes).getD 0
      then some ⟨Cloud.jsRound ((d.physicalMemoryUsageBytes).getD 0 * 100) ((d.availablePhysicalMemoryBytes).getD 0 + (d.physicalMemoryUsageBytes).getD 0)⟩
      else none := rfl
  have hcomm : (d.availablePhysicalMemoryBytes).getD 0 + (d.physicalMemoryUsageBytes).getD 0
      = (d.physicalMemoryUsageBytes).getD 0 + (d.availablePhysicalMemoryBytes).getD 0 :=
    Nat.add_comm _ _
  rw [hmem, hcomm]
  constructor
  · intro h
    rw [if_pos h]
  · intro h
    rw [if_neg (by omega)]

/-- Concrete instantiation of C9: used = 2 GB and available = 2 GB gives 50;
used = 0 and available = 0 gives `null`. -/
theorem memory_normalization_witness :
    (Cloud.normalizeServerHealth Cloud.sampleListing (some Cloud.detailTwoGB)).memory
        = some { usagePercent := 50 }
      ∧ (Cloud.normalizeServerHealth Cloud.sampleListing (some Cloud.detailZeroMem)).memory
          = none := by
  constructor
  · have h := (memory_normalization Cloud.sampleListing Cloud.detailTwoGB).1 (by decide)
    rw [h]
    decide
  · exact (memory_normalization Cloud.sampleListing Cloud.detailZeroMem).2 (by decide)

/-- C4, counterexample: a cloud call fails with a 401 at 1000000 ms
("now" = second 1000) while a token with decoded claim exp = 5000 is stored.
The interceptor collapses `expiresAt` to 0 — the epoch — and NOT to the
current time, refuting the claim that `expiresAt` becomes "now". -/
theorem interceptor_collapse_not_now :
    (Cloud.getTokenStatus (Cloud.cloudResponseInterceptor Cloud.stClaim5000 401) 1000000).expiresAt
        = some 0
      ∧ (Cloud.getTokenStatus (Cloud.cloudResponseInterceptor Cloud.stClaim5000 401) 1000000).expiresAt
          ≠ some ((1000000 / 1000 : Nat) : Int) := by
  constructor
  · rfl
  · decide

/-- C4, amended: when a cloud API call is observed to fail with a 401 while
a token is stored, the token's `expiresAt` is defensively collapsed to 0
(the Unix epoch) — a value no later than any current time — regardless of
the decoded claim, so that `getTokenStatus().isExpired` is true immediately
afterwards. -/
theorem interceptor_collapse_to_epoch (st : Cloud.CloudState) (p : Cloud.JwtPayload)
    (hp : st.tokenPayload = some p) (nowMs : Nat) :
    (Cloud.cloudResponseInterceptor st 401).tokenPayload = some { exp := 0, iat := p.iat }
      ∧ (Cloud.getTokenStatus (Cloud.cloudResponseInterceptor st 401) nowMs).isExpired = true := by
  have hst : Cloud.cloudResponseInterceptor st 401
      = { st with tokenPayload := some { exp := 0, iat := p.iat } } := by
    simp [Cloud.cloudResponseInterceptor, hp]
  refine ⟨by rw [hst], ?_⟩
  rw [hst]
  cases hj : st.jwtToken with
  | some r =>
    simp [Cloud.getTokenStatus, hj]
    omega
  | none =>
    simp [Cloud.getTokenStatus, hj]

/-- Concrete instantiation of the amended C4. -/
theorem interceptor_collapse_to_epoch_witness :
    (Cloud.cloudResponseInterceptor Cloud.stClaim5000 401).tokenPayload
        = some { exp := 0, iat := 0 }
      ∧ (Cloud.getTokenStatus (Cloud.cloudResponseInterceptor Cloud.stClaim5000 401) 1000000).isExpired
          = true := by
  have h := interceptor_collapse_to_epoch Cloud.stClaim5000 { exp := 5000, iat := 0 } rfl 1000000
  exact h

/-- C6: for every structurally valid token (decode succeeds) and every prior
cloud-cache state, `setToken(raw)` leaves no cache entry under any key —
including unexpired long-TTL health-summary entries — and stores the new
token with its decoded payload. -/
theorem setToken_clears_cache (parsePayload : String → Option Cloud.JwtPayload)
    (st : Cloud.CloudState) (raw : String) (nowMs : Nat) (payload : Cloud.JwtPayload)
    (hdec : Cloud.decodeJwtPayload parsePayload raw = Except.ok payload) :
    (∀ k : Cloud.CloudKey, storeGet (Cloud.setToken parsePayload st raw nowMs).1.cache k = none)
      ∧ (Cloud.setToken parsePayload st raw nowMs).1.jwtToken = some raw
      ∧ (Cloud.setToken parsePayload st raw nowMs).1.tokenPayload = some payload
      ∧ (Cloud.setToken parsePayload st raw nowMs).2
          = Except.ok { expiresAt := payload.exp, issuedAt := payload.iat, setAt := nowMs } := by
  refine ⟨fun k => ?_, ?_, ?_, ?_⟩ <;>
    simp [Cloud.setToken, hdec, Cloud.clearCache, storeGet]

/-- Concrete instantiation of C6: submitting "h.p.s" over a state holding an
old token and an unexpired cached summary leaves no cached summary and the
new token stored. -/
theorem setToken_clears_cache_witness :
    storeGet (Cloud.setToken Cloud.parseFixed Cloud.stPrior "h.p.s" 5).1.cache
        Cloud.CloudKey.healthSummary = none
      ∧ (Cloud.setToken Cloud.parseFixed Cloud.stPrior "h.p.s" 5).1.jwtToken = some "h.p.s" := by
  have h := setToken_clears_cache Cloud.parseFixed Cloud.stPrior "h.p.s" 5
    { exp := 3600, iat := 1 } (by rfl)
  exact ⟨h.1 Cloud.CloudKey.healthSummary, h.2.1⟩

/-- C7: for every token string whose `'.'`-segment count is not 3,
`setToken(raw)` fails with the structural-validation error and returns the
state entirely unchanged: stored token, decoded payload, set-at timestamp
and cache contents are those of the prior state. -/
theorem setToken_malformed_unchanged (parsePayload : String → Option Cloud.JwtPayload)
    (st : Cloud.CloudState) (raw : String) (nowMs : Nat)
    (hbad : (Cloud.jsSplitDot raw).length ≠ 3) :
    (Cloud.setToken parsePayload st raw nowMs).1 = st
      ∧ (Cloud.setToken parsePayload st raw nowMs).2
          = Except.error "Failed to decode JWT: Invalid JWT format" := by
  have hdec : Cloud.decodeJwtPayload parsePayload raw
      = Except.error "Failed to decode JWT: Invalid JWT format" := by
    simp [Cloud.decodeJwtPayload, hbad]
  constructor <;> simp [Cloud.setToken, hdec]

/-- Concrete instantiation of C7: "nodots" has 1 segment; the prior state —
token, payload, set-at and cache — is returned unchanged. -/
theorem setToken_malformed_unchanged_witness :
    (Cloud.setToken Cloud.parseFixed Cloud.stPrior "nodots" 5).1 = Cloud.stPrior
      ∧ (Cloud.setToken Cloud.parseFixed Cloud.stPrior "nodots" 5).2
          = Except.error "Failed to decode JWT: Invalid JWT format" := by
  have h := setToken_malformed_unchanged Cloud.parseFixed Cloud.stPrior "nodots" 5 (by decide)
  exact h

/-- C10: `getTokenStatus().hasCachedData` reports key presence only, not
freshness: with a token stored and a health-summary entry whose expiry has
passed but which no read has evicted yet, `hasCachedData` is `true` while
`getCached('cloud_health_summary')` at the same moment returns absent. -/
theorem hasCachedData_presence_only (st : Cloud.CloudState) (raw : String)
    (p : Cloud.JwtPayload) (e : CacheEntry Cloud.CloudData) (nowMs : Nat)
    (htok : st.jwtToken = some raw) (hp : st.tokenPayload = some p)
    (hent : storeGet st.cache Cloud.CloudKey.healthSummary = some e)
    (hexp : e.expiry ≤ nowMs) :
    (Cloud.getTokenStatus st nowMs).hasCachedData = some true
      ∧ (getCached st.cache Cloud.CloudKey.healthSummary nowMs).1 = none := by
  constructor
  · simp [Cloud.getTokenStatus, htok, hp, Cloud.cacheHas, hent]
  · have hlt : ¬ (nowMs < e.expiry) := by omega
    simp [getCached, hent, hlt]

/-! ### Supporting lemmas for the health aggregator -/

theorem interceptor_cache_eq (st : Cloud.CloudState) (status : Nat) :
    (Cloud.cloudResponseInterceptor st status).cache = st.cache := by
  by_cases h : status = 401
  · simp only [Cloud.cloudResponseInterceptor, h, if_true]
    cases st.tokenPayload <;> rfl
  · simp [Cloud.cloudResponseInterceptor, h]

theorem detailConsistent_storeDelete (oc : Cloud.CloudOracle)
    (c : List (Cloud.CloudKey × CacheEntry Cloud.CloudData)) (k : Cloud.CloudKey)
    (h : Cloud.detailConsistent oc c) : Cloud.detailConsistent oc (storeDelete c k) := by
  intro id e hget
  by_cases hk : Cloud.CloudKey.serverDetail id = k
  · subst hk
    rw [storeGet_storeDelete_self] at hget
    simp at hget
  · rw [storeGet_storeDelete_ne c k _ hk] at hget
    exact h id e hget

theorem detailConsistent_setDetail (oc : Cloud.CloudOracle)
    (c : List (Cloud.CloudKey × CacheEntry Cloud.CloudData)) (id : String)
    (d : Cloud.ServerDetail) (ttl : Option Nat) (now : Nat)
    (hok : oc.detail id = Except.ok d) (h : Cloud.detailConsistent oc c) :
    Cloud.detailConsistent oc
      (setCache c (Cloud.CloudKey.serverDetail id) (Cloud.CloudData.detail d) ttl now) := by
  intro id' e' hget
  by_cases hid : id' = id
  · subst hid
    rw [setCache, storeGet_storeSet_self] at hget
    refine ⟨d, hok, ?_⟩
    rw [← Option.some.inj hget]
  · have hne : Cloud.CloudKey.serverDetail id' ≠ Cloud.CloudKey.serverDetail id := by
      simp [hid]
    rw [setCache, storeGet_storeSet_ne _ _ _ _ hne] at hget
    exact h id' e' hget

theorem zipWith_map_self {α β γ : Type} (f : α → β → γ) (g : α → β) :
    ∀ L : List α, List.zipWith f L (L.map g) = L.map (fun a => f a (g a)) := by
  intro L
  induction L with
  | nil => rfl
  | cons a l ih => simp [ih]

theorem bind_asDetail_map_detail (o : Option Cloud.ServerDetail) :
    Option.bind (o.map Cloud.CloudData.detail) Cloud.asDetail = o := by
  cases o <;> rfl

/-- The guard lemma: `ensureToken` succeeds on any state holding an
unexpired token. -/
theorem ensureToken_ok (st : Cloud.CloudState) (nowMs : Nat) (raw : String)
    (p : Cloud.JwtPayload) (h1 : st.jwtToken = some raw) (h2 : st.tokenPayload = some p)
    (hvalid : ¬ (p.exp - 300 < ((nowMs / 1000 : Nat) : Int))) :
    Cloud.ensureToken st nowMs = Except.ok () := by
  unfold Cloud.ensureToken Cloud.getTokenStatus
  simp only [h1, h2, decide_eq_false hvalid]
  simp

/-- The guard lemma: `ensureToken` fails with the expired-credential error
once the buffered expiry has passed. -/
theorem ensureToken_expired (st : Cloud.CloudState) (nowMs : Nat) (raw : String)
    (p : Cloud.JwtPayload) (h1 : st.jwtToken = some raw) (h2 : st.tokenPayload = some p)
    (hexp : p.exp - 300 < ((nowMs / 1000 : Nat) : Int)) :
    Cloud.ensureToken st nowMs = Except.error Cloud.CloudErr.tokenExpired := by
  unfold Cloud.ensureToken Cloud.getTokenStatus
  simp only [h1, h2, decide_eq_true hexp]
  simp

/-- Behaviour of the detail fan-out under a passing token guard: the settled
values are exactly the per-server oracle outcomes (null for the rejected
ones), and the detail-key cache region stays oracle-consistent. -/
theorem fetchDetailsSettled_spec (oc : Cloud.CloudOracle) (nowMs : Nat) :
    ∀ (L : List Cloud.ServerListing) (st : Cloud.CloudState),
      Cloud.detailConsistent oc st.cache →
      (Cloud.fetchDetailsSettled oc nowMs (Except.ok ()) st L).2
          = L.map (fun s => ((oc.detail s.id).toOption).map Cloud.CloudData.detail)
        ∧ Cloud.detailConsistent oc
            (Cloud.fetchDetailsSettled oc nowMs (Except.ok ()) st L).1.cache := by
  intro L
  induction L with
  | nil =>
    intro st h
    exact ⟨rfl, h⟩
  | cons s rest ih =>
    intro st h
    cases hg : storeGet st.cache (Cloud.CloudKey.serverDetail s.id) with
    | none =>
      cases hd : oc.detail s.id with
      | error c =>
        have hcons : Cloud.detailConsistent oc
            (Cloud.cloudResponseInterceptor { st with cache := st.cache } c).cache := by
          rw [interceptor_cache_eq]
          exact h
        obtain ⟨ih1, ih2⟩ := ih _ hcons
        simp only [Cloud.fetchDetailsSettled, getCached, hg, hd]
        exact ⟨by rw [ih1]; simp [hd, Except.toOption], ih2⟩
      | ok d =>
        have hcons : Cloud.detailConsistent oc
            (setCache st.cache (Cloud.CloudKey.serverDetail s.id)
              (Cloud.CloudData.detail d) none nowMs) :=
          detailConsistent_setDetail oc st.cache s.id d none nowMs hd h
        obtain ⟨ih1, ih2⟩ := ih { st with
          cache := setCache st.cache (Cloud.CloudKey.serverDetail s.id)
            (Cloud.CloudData.detail d) none nowMs } hcons
        simp only [Cloud.fetchDetailsSettled, getCached, hg, hd]
        exact ⟨by rw [ih1]; simp [hd, Except.toOption], ih2⟩
    | some e =>
      obtain ⟨d, hd, hdata⟩ := h s.id e hg
      by_cases hf : nowMs < e.expiry
      · obtain ⟨ih1, ih2⟩ := ih { st with cache := st.cache } h
        simp only [Cloud.fetchDetailsSettled, getCached, hg, if_pos hf]
        exact ⟨by rw [ih1]; simp [hd, hdata, Except.toOption], ih2⟩
      · have hcons1 : Cloud.detailConsistent oc
            (storeDelete st.cache (Cloud.CloudKey.serverDetail s.id)) :=
          detailConsistent_storeDelete oc st.cache _ h
        have hcons2 : Cloud.detailConsistent oc
            (setCache (storeDelete st.cache (Cloud.CloudKey.serverDetail s.id))
              (Cloud.CloudKey.serverDetail s.id) (Cloud.CloudData.detail d) none nowMs) :=
          detailConsistent_setDetail oc _ s.id d none nowMs hd hcons1
        obtain ⟨ih1, ih2⟩ := ih { st with
          cache := setCache (storeDelete st.cache (Cloud.CloudKey.serverDetail s.id))
            (Cloud.CloudKey.serverDetail s.id) (Cloud.CloudData.detail d) none nowMs } hcons2
        simp only [Cloud.fetchDetailsSettled, getCached, hg, if_neg hf, hd]
        exact ⟨by rw [ih1]; simp [hd, Except.toOption], ih2⟩

/-- Concrete instantiation of C10: summary entry expired at 1000 ms, read at
2000 ms. -/
theorem hasCachedData_presence_only_witness :
    (Cloud.getTokenStatus Cloud.stStaleSummary 2000).hasCachedData = some true
      ∧ (getCached Cloud.stStaleSummary.cache Cloud.CloudKey.healthSummary 2000).1 = none := by
  have h := hasCachedData_presence_only Cloud.stStaleSummary "tok" { exp := 5000, iat := 0 }
    ⟨Cloud.CloudData.summary [], 1000⟩ 2000 rfl rfl (by decide) (by decide)
  exact h

theorem storeGet_setCache_self {κ α : Type} [DecidableEq κ]
    (s : List (κ × CacheEntry α)) (k : κ) (v : α) (ttl : Option Nat) (now : Nat) :
    storeGet (setCache s k v ttl now) k = some ⟨v, now + effectiveTTL ttl⟩ := by
  rw [setCache, storeGet_storeSet_self]

theorem getServers_miss (oc : Cloud.CloudOracle) (st : Cloud.CloudState)
    (nowMs page pageSize : Nat) (c1 : List (Cloud.CloudKey × CacheEntry Cloud.CloudData))
    (h : getCached st.cache (Cloud.CloudKey.servers page pageSize) nowMs = (none, c1)) :
    Cloud.getServers oc st nowMs page pageSize
      = Cloud.getServersFetch oc { st with cache := c1 } nowMs page pageSize := by
  rw [Cloud.getServers.eq_def, h]

theorem getServersFetch_expired (oc : Cloud.CloudOracle) (st1 : Cloud.CloudState)
    (nowMs page pageSize : Nat) (e : Cloud.CloudErr)
    (h : Cloud.ensureToken st1 nowMs = Except.error e) :
    Cloud.getServersFetch oc st1 nowMs page pageSize = (st1, Except.error e) := by
  rw [Cloud.getServersFetch.eq_def, h]

theorem getServersFetch_run (oc : Cloud.CloudOracle) (st1 : Cloud.CloudState)
    (nowMs page pageSize : Nat) (resp : Cloud.ServersResponse)
    (hok : Cloud.ensureToken st1 nowMs = Except.ok ())
    (hresp : oc.serversResp = Except.ok resp) :
    Cloud.getServersFetch oc st1 nowMs page pageSize
      = ({ st1 with cache := setCache st1.cache (Cloud.CloudKey.servers page pageSize) (Cloud.CloudData.serverList resp) none nowMs },
          Except.ok (Cloud.CloudData.serverList resp)) := by
  rw [Cloud.getServersFetch.eq_def, hok, hresp]

theorem healthSummary_miss (oc : Cloud.CloudOracle) (st : Cloud.CloudState) (nowMs : Nat)
    (c1 : List (Cloud.CloudKey × CacheEntry Cloud.CloudData))
    (h : getCached st.cache Cloud.CloudKey.healthSummary nowMs = (none, c1)) :
    Cloud.getAllServerHealthSummary oc st nowMs
      = Cloud.healthSummaryFetch oc { st with cache := c1 } nowMs := by
  rw [Cloud.getAllServerHealthSummary.eq_def, h]

theorem healthSummaryFetch_run (oc : Cloud.CloudOracle) (st1 st2 : Cloud.CloudState)
    (nowMs : Nat) (data : Cloud.CloudData)
    (hok : Cloud.ensureToken st1 nowMs = Except.ok ())
    (hgs : Cloud.getServers oc st1 nowMs 1 100 = (st2, Except.ok data)) :
    Cloud.healthSummaryFetch oc st1 nowMs = Cloud.healthSummaryCompute oc st2 nowMs data := by
  rw [Cloud.healthSummaryFetch.eq_def, hok, hgs]

/-- C3: for a token issued at second T with claim exp = T + 3600 and a health
summary cached at millisecond 1000·T under the 24-hour TTL, at second T + 3700:
`getTokenStatus()` reports `isExpired = true` (the 300 s buffer has passed)
and `hasCachedData = true`; a direct (cache-missing) cloud call fails with
the expired-credential error from `ensureToken()`; and
`getAllServerHealthSummary()` still returns the cached summary, because it
consults the cache before the token guard. -/
theorem token_expiry_cache_decoupling (T : Nat) (raw : String) (t0 : Nat)
    (summ : List Cloud.HealthRecord) (oc : Cloud.CloudOracle) :
    (Cloud.getTokenStatus (Cloud.c3State T raw t0 summ) (1000 * T + 3700000)).isExpired = true
      ∧ (Cloud.getTokenStatus (Cloud.c3State T raw t0 summ) (1000 * T + 3700000)).hasCachedData
          = some true
      ∧ (Cloud.getServers oc (Cloud.c3State T raw t0 summ) (1000 * T + 3700000) 1 100).2
          = Except.error Cloud.CloudErr.tokenExpired
      ∧ (Cloud.getAllServerHealthSummary oc (Cloud.c3State T raw t0 summ) (1000 * T + 3700000)).2
          = Except.ok (Cloud.CloudData.summary summ) := by
  have hfresh : 1000 * T + 3700000 < 1000 * T + 86400000 := by omega
  have hcached : getCached (Cloud.c3State T raw t0 summ).cache Cloud.CloudKey.healthSummary
      (1000 * T + 3700000)
      = (some (Cloud.CloudData.summary summ), (Cloud.c3State T raw t0 summ).cache) := by
    simp [Cloud.c3State, getCached, storeGet, hfresh]
  refine ⟨?_, ?_, ?_, ?_⟩
  · simp [Cloud.getTokenStatus, Cloud.c3State]
    omega
  · simp [Cloud.getTokenStatus, Cloud.c3State, Cloud.cacheHas, storeGet]
  · have hmiss : getCached (Cloud.c3State T raw t0 summ).cache
        (Cloud.CloudKey.servers 1 100) (1000 * T + 3700000)
        = (none, (Cloud.c3State T raw t0 summ).cache) := by
      simp [Cloud.c3State, getCached, storeGet]
    have hensure : Cloud.ensureToken
        { Cloud.c3State T raw t0 summ with cache := (Cloud.c3State T raw t0 summ).cache }
        (1000 * T + 3700000) = Except.error Cloud.CloudErr.tokenExpired :=
      ensureToken_expired _ _ raw { exp := (T : Int) + 3600, iat := (T : Int) } rfl rfl
        (show ((T : Int) + 3600) - 300 < (((1000 * T + 3700000) / 1000 : Nat) : Int) by omega)
    rw [getServers_miss oc _ _ 1 100 _ hmiss,
      getServersFetch_expired oc _ _ 1 100 _ hensure]
  · rw [Cloud.getAllServerHealthSummary.eq_def, hcached]

/-- C5: over any non-empty listed server set, starting from the state a
fresh `setToken` leaves (token stored, cache empty) with the token unexpired,
`getAllServerHealthSummary()` returns exactly one `HealthRecord` per listed
server — each the normalization of that server's own detail outcome — even
when some per-server detail calls fail; a failed server's record is the
detail-less normalization of its listing: listing-identity fields, empty
hardware sub-lists and null cpu/memory; and the whole result is cached under
the 24-hour TTL (entry expiry now + 86400000) regardless of how many detail
calls failed. -/
theorem healthSummary_partial_tolerance (oc : Cloud.CloudOracle) (raw : String)
    (p : Cloud.JwtPayload) (t0 nowMs : Nat) (resp : Cloud.ServersResponse)
    (hresp : oc.serversResp = Except.ok resp)
    (hvalid : ¬ (p.exp - 300 < ((nowMs / 1000 : Nat) : Int)))
    (hne : resp.servers.getD [] ≠ []) :
    (Cloud.getAllServerHealthSummary oc (Cloud.tokenOnlyState raw p t0) nowMs).2
        = Except.ok (Cloud.CloudData.summary ((resp.servers.getD []).map
            (fun s => Cloud.normalizeServerHealth s (oc.detail s.id).toOption)))
      ∧ ((resp.servers.getD []).map
            (fun s => Cloud.normalizeServerHealth s (oc.detail s.id).toOption)).length
          = (resp.servers.getD []).length
      ∧ storeGet
            (Cloud.getAllServerHealthSummary oc (Cloud.tokenOnlyState raw p t0) nowMs).1.cache
            Cloud.CloudKey.healthSummary
          = some ⟨Cloud.CloudData.summary ((resp.servers.getD []).map
              (fun s => Cloud.normalizeServerHealth s (oc.detail s.id).toOption)),
              nowMs + 86400000⟩
      ∧ ∀ s ∈ resp.servers.getD [], (oc.detail s.id).toOption = none →
          Cloud.normalizeServerHealth s (oc.detail s.id).toOption
              = Cloud.normalizeServerHealth s none
            ∧ (Cloud.normalizeServerHealth s none).cloudServerId = s.id
            ∧ (Cloud.normalizeServerHealth s none).hardware = ⟨[], [], [], []⟩
            ∧ (Cloud.normalizeServerHealth s none).cpu = none
            ∧ (Cloud.normalizeServerHealth s none).memory = none
            ∧ (Cloud.normalizeServerHealth s none).networks = [] := by
  have hok : ∀ c : List (Cloud.CloudKey × CacheEntry Cloud.CloudData),
      Cloud.ensureToken { jwtToken := some raw, tokenPayload := some p, tokenSetAt := some t0, cache := c } nowMs
        = Except.ok () :=
    fun c => ensureToken_ok _ nowMs raw p rfl rfl hvalid
  have hie : (resp.servers.getD []).isEmpty = false := by
    cases hL : resp.servers.getD [] with
    | nil => exact absurd hL hne
    | cons a l => rfl
  have hgs : Cloud.getServers oc
      { jwtToken := some raw, tokenPayload := some p, tokenSetAt := some t0, cache := ([] : List (Cloud.CloudKey × CacheEntry Cloud.CloudData)) }
      nowMs 1 100
      = ({ jwtToken := some raw, tokenPayload := some p, tokenSetAt := some t0, cache := setCache [] (Cloud.CloudKey.servers 1 100) (Cloud.CloudData.serverList resp) none nowMs },
          Except.ok (Cloud.CloudData.serverList resp)) := by
    rw [getServers_miss oc
      { jwtToken := some raw, tokenPayload := some p, tokenSetAt := some t0, cache := ([] : List (Cloud.CloudKey × CacheEntry Cloud.CloudData)) }
      nowMs 1 100 [] rfl]
    rw [getServersFetch_run oc _ nowMs 1 100 resp (hok _) hresp]
  have hfull : Cloud.getAllServerHealthSummary oc (Cloud.tokenOnlyState raw p t0) nowMs
      = Cloud.healthSummaryCompute oc
          { jwtToken := some raw, tokenPayload := some p, tokenSetAt := some t0, cache := setCache [] (Cloud.CloudKey.servers 1 100) (Cloud.CloudData.serverList resp) none nowMs }
          nowMs (Cloud.CloudData.serverList resp) := by
    rw [healthSummary_miss oc (Cloud.tokenOnlyState raw p t0) nowMs [] rfl]
    simp only [Cloud.tokenOnlyState]
    rw [healthSummaryFetch_run oc _ _ nowMs _ (hok _) hgs]
  have hcons : Cloud.detailConsistent oc
      ({ jwtToken := some raw, tokenPayload := some p, tokenSetAt := some t0, cache := setCache [] (Cloud.CloudKey.servers 1 100) (Cloud.CloudData.serverList resp) none nowMs } : Cloud.CloudState).cache := by
    intro id e hget
    simp [setCache, storeSet, storeGet] at hget
  obtain ⟨hfd1, _hfd2⟩ := fetchDetailsSettled_spec oc nowMs (resp.servers.getD [])
    { jwtToken := some raw, tokenPayload := some p, tokenSetAt := some t0, cache := setCache [] (Cloud.CloudKey.servers 1 100) (Cloud.CloudData.serverList resp) none nowMs }
    hcons
  have hcomp : Cloud.healthSummaryCompute oc
      { jwtToken := some raw, tokenPayload := some p, tokenSetAt := some t0, cache := setCache [] (Cloud.CloudKey.servers 1 100) (Cloud.CloudData.serverList resp) none nowMs }
      nowMs (Cloud.CloudData.serverList resp)
      = (let fd := Cloud.fetchDetailsSettled oc nowMs (Except.ok ())
          { jwtToken := some raw, tokenPayload := some p, tokenSetAt := some t0, cache := setCache [] (Cloud.CloudKey.servers 1 100) (Cloud.CloudData.serverList resp) none nowMs }
          (resp.servers.getD []);
        let records := List.zipWith
          (fun s o => Cloud.normalizeServerHealth s (Option.bind o Cloud.asDetail))
          (resp.servers.getD []) fd.2;
        ({ fd.1 with cache := setCache fd.1.cache Cloud.CloudKey.healthSummary (Cloud.CloudData.summary records) (some 86400000) nowMs },
          Except.ok (Cloud.CloudData.summary records))) := by
    simp only [Cloud.healthSummaryCompute, Cloud.serversOf]
    rw [hok _, hie]
    rfl
  have hrec : List.zipWith
      (fun s o => Cloud.normalizeServerHealth s (Option.bind o Cloud.asDetail))
      (resp.servers.getD [])
      (Cloud.fetchDetailsSettled oc nowMs (Except.ok ())
        { jwtToken := some raw, tokenPayload := some p, tokenSetAt := some t0, cache := setCache [] (Cloud.CloudKey.servers 1 100) (Cloud.CloudData.serverList resp) none nowMs }
        (resp.servers.getD [])).2
      = (resp.servers.getD []).map
          (fun s => Cloud.normalizeServerHealth s (oc.detail s.id).toOption) := by
    rw [hfd1, zipWith_map_self]
    simp only [bind_asDetail_map_detail]
  refine ⟨?_, by simp, ?_, ?_⟩
  · rw [hfull, hcomp]
    simp only [hrec]
  · rw [hfull, hcomp]
    simp only [hrec]
    rw [storeGet_setCache_self]
    rfl
  · intro s hs hfail
    rw [hfail]
    exact ⟨rfl, rfl, rfl, rfl, rfl, rfl⟩

/-- Concrete instantiation of C5: three listed servers, the detail call for
"b" rejected — the summary still has one record per server, each the
normalization of its own outcome. -/
theorem healthSummary_partial_tolerance_witness :
    (Cloud.getAllServerHealthSummary Cloud.threeServerOracle
        (Cloud.tokenOnlyState "tk" { exp := 3600, iat := 0 } 0) 0).2
      = Except.ok (Cloud.CloudData.summary
          (([Cloud.mkListing "a", Cloud.mkListing "b", Cloud.mkListing "c"]).map
            (fun s => Cloud.normalizeServerHealth s (Cloud.threeServerOracle.detail s.id).toOption))) := by
  have h := healthSummary_partial_tolerance Cloud.threeServerOracle "tk" { exp := 3600, iat := 0 }
    0 0 ⟨some [Cloud.mkListing "a", Cloud.mkListing "b", Cloud.mkListing "c"]⟩ rfl (by decide)
    (by decide)
  exact h.1

end AvigilonDashboard
